import Mathlib

/-!
Shallow embedding of the lighting-mcp repository (Python sources) in Lean 4,
together with theorems settling the frozen claims about it.

Modelling conventions:
- Python JSON-serialisable values are modelled by the inductive type JValue;
  Python dicts are association lists in insertion order, as built by the code.
- datetime.now().isoformat() results are opaque string parameters.
- Python floats are idealised as rationals; the claims under study concern
  only the presence and shape of fields, never float rounding.
- sqlite3 cursor behaviour (an external library) is an abstract ExecOutcome
  input: either a successful cursor (column names, fetched rows, rowcount,
  lastrowid) or a raised sqlite3.Error / other exception with a message.
-/

set_option maxHeartbeats 1000000

namespace LightingMCP

/-- JSON-like values, modelling Python JSON-serialisable data. -/
inductive JValue where
  | jnull : JValue
  | jbool : Bool → JValue
  | jint : Int → JValue
  | jnum : ℚ → JValue
  | jstr : String → JValue
  | jarr : List JValue → JValue
  | jobj : List (String × JValue) → JValue

/-- A Python dict in insertion order: an association list from keys to values. -/
abbrev JDict := List (String × JValue)

/-- Python dict.get(k): the value at the first (hence only) occurrence of k. -/
def jGet (d : JDict) (k : String) : Option JValue :=
  (d.find? (fun p => p.1 == k)).map (fun p => p.2)

/-- Python dict.get(k, default). -/
def jGetD (d : JDict) (k : String) (v : JValue) : JValue :=
  (jGet d k).getD v

/-- Python membership test: k in d. -/
def hasKey (d : JDict) (k : String) : Bool :=
  d.any (fun p => p.1 == k)

/-- Python dict assignment d[k] = v: overwrite in place if the key exists
(keeping its original insertion position), otherwise append at the end. -/
def dictSet (d : JDict) (k : String) (v : JValue) : JDict :=
  if d.any (fun p => p.1 == k) then
    d.map (fun p => if p.1 == k then (k, v) else p)
  else
    d ++ [(k, v)]

/-- The key list of a dict, in insertion order. -/
def dictKeys (d : JDict) : List String := d.map (fun p => p.1)

/-- Python truthy test on the status value: d.get("status") == s. -/
def isStatus (d : JDict) (s : String) : Bool :=
  match jGet d "status" with
  | some (JValue.jstr t) => t == s
  | _ => false

/-- Python len() on a JSON value (lists and dicts; 0 otherwise, unused). -/
def jLen : JValue → Int
  | JValue.jarr xs => xs.length
  | JValue.jobj kvs => kvs.length
  | _ => 0

/-- Python numeric-times-1000 on a JSON value, used for
result.get("execution_time", 0) * 1000. In the code the value at that key is
always an int or float, so the other constructors are unreachable. -/
def jMul1000 : JValue → JValue
  | JValue.jint n => JValue.jint (n * 1000)
  | JValue.jnum q => JValue.jnum (q * 1000)
  | v => v

/-- Whether a JSON value is a number (Python int or float). -/
def JValue.isNum : JValue → Bool
  | JValue.jint _ => true
  | JValue.jnum _ => true
  | _ => false

/-- Whether the character list n is an initial segment of m (helper for the
Python substring test). -/
def listStartsWith : List Char → List Char → Bool
  | [], _ => true
  | _ :: _, [] => false
  | a :: as, b :: bs => (a == b) && listStartsWith as bs

/-- Whether the character list need occurs contiguously inside hay. -/
def listHasSub (need : List Char) : List Char → Bool
  | [] => need.isEmpty
  | c :: rest => listStartsWith need (c :: rest) || listHasSub need rest

/-- Python substring containment: need in hay. -/
def pyIn (need hay : String) : Bool :=
  listHasSub need.data hay.data

/-- Python str.lower(), character by character (the texts compared by the
code are ASCII, where Python and Lean lowercasing agree). -/
def pyLower (s : String) : String := String.mk (s.data.map Char.toLower)

/-- Python str.upper(), character by character. -/
def pyUpper (s : String) : String := String.mk (s.data.map Char.toUpper)

/-- Python str.strip(): remove whitespace from both ends. -/
def pyStrip (s : String) : String :=
  String.mk (((s.data.dropWhile Char.isWhitespace).reverse.dropWhile
    Char.isWhitespace).reverse)

/-- Python str.startswith(kw). -/
def pyStartsWith (s kw : String) : Bool := listStartsWith kw.data s.data

/-- Python str.split() with no argument: split on whitespace runs, dropping
empty pieces. -/
def pySplit (s : String) : List String :=
  ((s.data.splitOnP Char.isWhitespace).filter (fun w => !w.isEmpty)).map String.mk

/-! ### DatabaseManager.execute_query (src/database.py lines 249-335)

The cursor-level effect of running the SQL text is outside the repository
(sqlite3); it enters the model as an ExecOutcome. Everything after the
cursor call is the repository's own reshaping code and is embedded
faithfully. -/

/-- Abstract outcome of the sqlite3 cursor executing a statement: a successful
cursor with its description names, fetched rows, rowcount and lastrowid, or a
raised sqlite3.Error, or any other raised exception. -/
inductive ExecOutcome where
  | ok : List String → List (List JValue) → Int → Int → ExecOutcome
  | sqlErr : String → ExecOutcome
  | genErr : String → ExecOutcome

/-- One row converted to a dict: for i, value in enumerate(row):
row_dict[columns[i]] = value. The cursor guarantees the row and the column
list have equal length, which the zip realises. -/
def rowDict (cols : List String) (row : List JValue) : JDict :=
  (cols.zip row).foldl (fun d p => dictSet d p.1 p.2) []

/-- Result of DatabaseManager.execute_query: the returned dict, plus whether
conn.commit() ran and whether the connection-context rollback ran. -/
structure ExecResult where
  result : JDict
  committed : Bool
  rolledBack : Bool

/-- DatabaseManager.execute_query. The try body either completes (outcome ok)
or an exception propagates to the except clauses, which build the error dict;
the surrounding _get_connection context manager rolls the connection back on
the way out. startTs is start_time.isoformat(), execTime the measured
duration in seconds. -/
def execute_query (query : String) (outcome : ExecOutcome)
    (startTs : String) (execTime : ℚ) : ExecResult :=
  match outcome with
  | ExecOutcome.ok cols rows rowcount lastrowid =>
      if pyStartsWith (pyUpper (pyStrip query)) "SELECT" then
        let data : List JValue := rows.map (fun row => JValue.jobj (rowDict cols row))
        { result :=
            [("status", JValue.jstr "success"),
             ("data", JValue.jarr data),
             ("columns", JValue.jarr (cols.map JValue.jstr)),
             ("row_count", JValue.jint data.length),
             ("execution_time", JValue.jnum execTime),
             ("timestamp", JValue.jstr startTs)],
          committed := false, rolledBack := false }
      else
        { result :=
            [("status", JValue.jstr "success"),
             ("rows_affected", JValue.jint rowcount),
             ("last_row_id", JValue.jint lastrowid),
             ("execution_time", JValue.jnum execTime),
             ("timestamp", JValue.jstr startTs)],
          committed := true, rolledBack := false }
  | ExecOutcome.sqlErr msg =>
      { result :=
          [("status", JValue.jstr "error"),
           ("error", JValue.jstr ("Database error: " ++ msg)),
           ("error_code", JValue.jstr "SQL_ERROR"),
           ("timestamp", JValue.jstr startTs)],
        committed := false, rolledBack := true }
  | ExecOutcome.genErr msg =>
      { result :=
          [("status", JValue.jstr "error"),
           ("error", JValue.jstr ("Unexpected error: " ++ msg)),
           ("error_code", JValue.jstr "GENERAL_ERROR"),
           ("timestamp", JValue.jstr startTs)],
        committed := false, rolledBack := true }

/-! ### DatabaseManager transaction bookkeeping (src/database.py lines 337-399)

self.transaction_connections is a Python dict from threading.get_ident()
values to sqlite3 connections: a finite map, modelled as a function from
thread ids to an optional connection id. Being a map, it holds at most one
connection per thread by construction. conn.commit / conn.rollback /
conn.close on the stored connection are external sqlite3 calls, modelled as
succeeding. -/

/-- The transaction_connections dict: thread id to stored connection id. -/
abbrev TxnMap := Nat → Option Nat

/-- DatabaseManager.begin_transaction as its effect on transaction_connections:
self.transaction_connections[thread_id] = conn. -/
def begin_transaction (s : TxnMap) (tid conn : Nat) : TxnMap :=
  fun t => if t = tid then some conn else s t

/-- DatabaseManager.commit_transaction: returns the new map and the message of
the raised exception, if any. When the calling thread has a stored
connection it is committed, closed, and deleted from the dict; otherwise
Exception("No active transaction found") is raised and the dict is untouched. -/
def commit_transaction (s : TxnMap) (tid : Nat) : TxnMap × Option String :=
  match s tid with
  | some _ => (fun t => if t = tid then none else s t, none)
  | none => (s, some "No active transaction found")

/-- DatabaseManager.rollback_transaction: when the calling thread has a stored
connection it is rolled back, closed, and deleted from the dict; otherwise
only a warning is logged and the function returns normally. -/
def rollback_transaction (s : TxnMap) (tid : Nat) : TxnMap :=
  match s tid with
  | some _ => fun t => if t = tid then none else s t
  | none => s

/-! ### OracleQueryTool (src/oracle_tools.py lines 53-159) -/

/-- OracleQueryTool._validate_sql_query: uppercase and strip the query, reject
when any dangerous keyword occurs as a substring, otherwise accept exactly
when the text starts with one of the valid statement keywords. -/
def validate_sql_query (query : String) : Bool :=
  let query_upper := pyStrip (pyUpper query)
  let dangerous_keywords := ["DROP", "TRUNCATE", "ALTER", "CREATE", "GRANT", "REVOKE"]
  if dangerous_keywords.any (fun kw => pyIn kw query_upper) then
    false
  else
    let valid_start_keywords := ["SELECT", "INSERT", "UPDATE", "DELETE", "WITH"]
    valid_start_keywords.any (fun kw => pyStartsWith query_upper kw)

/-- OracleQueryTool._format_oracle_result: reshape a DatabaseManager result
dict into the simulated Oracle ADB envelope. nowTs stands for the
datetime.now().isoformat() calls made while building the envelope. -/
def format_oracle_result (result : JDict) (query : String) (nowTs : String) : JDict :=
  if isStatus result "error" then
    [("status", JValue.jstr "error"),
     ("error_code", JValue.jstr "ORA-00942"),
     ("error_message", jGetD result "error" (JValue.jstr "Unknown Oracle error")),
     ("timestamp", JValue.jstr nowTs)]
  else
    let oracle_result : JDict :=
      [("status", JValue.jstr "success"),
       ("execution_time_ms", jMul1000 (jGetD result "execution_time" (JValue.jint 0))),
       ("rows_affected", JValue.jint (jLen (jGetD result "data" (JValue.jarr [])))),
       ("data", jGetD result "data" (JValue.jarr [])),
       ("columns", jGetD result "columns" (JValue.jarr [])),
       ("oracle_metadata", JValue.jobj
         [("session_id", JValue.jstr "ADB_SESSION_001"),
          ("database_version", JValue.jstr "Oracle Database 19c Enterprise Edition"),
          ("service_name", JValue.jstr "autonomous_db_high"),
          ("connection_pool", JValue.jstr "default_pool"),
          ("timestamp", JValue.jstr nowTs)])]
    if pyStartsWith (pyStrip (pyUpper query)) "SELECT" then
      dictSet oracle_result "query_plan" (JValue.jobj
        [("plan_hash_value", JValue.jstr "1234567890"),
         ("optimizer_mode", JValue.jstr "ALL_ROWS"),
         ("cost", JValue.jint 10),
         ("cardinality", JValue.jint (jLen (jGetD result "data" (JValue.jarr []))))])
    else
      oracle_result

/-- Result of OracleQueryTool._run: the JSON object it serialises (the real
method returns its json.dumps), plus whether db_manager.execute_query was
invoked at all. -/
structure RunResult where
  output : JDict
  executedQuery : Bool

/-- OracleQueryTool._run. fmtQ stands for the _format_oracle_query rewriting
step (regex-based query cosmetics, irrelevant to the claims under study);
outcome, startTs, execTime feed the execute_query model and nowTs the
datetime.now() calls. An invalid query raises ValueError inside the try, so
the except clause returns the ORA-00001 envelope and no query is executed. -/
def oracle_query_tool_run (fmtQ : String → String) (sql_query : String)
    (outcome : ExecOutcome) (startTs : String) (execTime : ℚ) (nowTs : String) :
    RunResult :=
  if validate_sql_query sql_query then
    let oracle_formatted_query := fmtQ sql_query
    let result := (execute_query oracle_formatted_query outcome startTs execTime).result
    { output := format_oracle_result result oracle_formatted_query nowTs,
      executedQuery := true }
  else
    { output :=
        [("status", JValue.jstr "error"),
         ("error_code", JValue.jstr "ORA-00001"),
         ("error_message", JValue.jstr
           "Oracle query execution failed: Invalid SQL query format"),
         ("timestamp", JValue.jstr nowTs)],
      executedQuery := false }

/-! ### SimpleMCPServer.execute_oracle_query (src/simple_mcp_server.py lines 89-140)

Embedded from the point where the DatabaseManager result is in hand (the
method first calls self.db_manager.execute_query itself); the claims compare
this reshaping against OracleQueryTool._format_oracle_result on the same
result dict. -/

/-- The result-reshaping portion of SimpleMCPServer.execute_oracle_query. -/
def simple_execute_oracle_query_format (result : JDict) (query : String)
    (nowTs : String) : JDict :=
  if isStatus result "success" then
    let oracle_result : JDict :=
      [("status", JValue.jstr "success"),
       ("execution_time_ms", jMul1000 (jGetD result "execution_time" (JValue.jint 0))),
       ("rows_affected", JValue.jint (jLen (jGetD result "data" (JValue.jarr [])))),
       ("data", jGetD result "data" (JValue.jarr [])),
       ("columns", jGetD result "columns" (JValue.jarr [])),
       ("oracle_metadata", JValue.jobj
         [("session_id", JValue.jstr "ADB_SESSION_001"),
          ("database_version", JValue.jstr "Oracle Database 19c Enterprise Edition"),
          ("service_name", JValue.jstr "autonomous_db_high"),
          ("connection_pool", JValue.jstr "default_pool"),
          ("timestamp", JValue.jstr nowTs)])]
    if pyStartsWith (pyStrip (pyUpper query)) "SELECT" then
      dictSet oracle_result "query_plan" (JValue.jobj
        [("plan_hash_value", JValue.jstr "1234567890"),
         ("optimizer_mode", JValue.jstr "ALL_ROWS"),
         ("cost", JValue.jint 10),
         ("cardinality", JValue.jint (jLen (jGetD result "data" (JValue.jarr []))))])
    else
      oracle_result
  else
    [("status", JValue.jstr "error"),
     ("error_code", JValue.jstr "ORA-00942"),
     ("error_message", jGetD result "error" (JValue.jstr "Unknown Oracle error")),
     ("timestamp", JValue.jstr nowTs)]

/-! ### MCP._analyze_query (src/working_mcp_server.py lines 291-377) -/

/-- The hard-coded database keyword list of MCP._analyze_query. -/
def db_keywords : List String :=
  ["select", "table", "database", "schema", "sql", "query", "data",
   "employee", "department", "order", "customer", "column", "row",
   "insert", "update", "delete", "join", "where", "group by",
   "employees", "departments", "orders", "customers", "records",
   "show me", "get all", "find", "list", "retrieve", "fetch",
   "structure", "tables", "metadata", "information"]

/-- The hard-coded API keyword list of MCP._analyze_query. -/
def api_keywords : List String :=
  ["api", "http", "request", "endpoint", "call", "external",
   "service", "rest", "json", "response", "web service",
   "integration", "third party", "remote", "fetch data",
   "jsonplaceholder", "typicode", "posts", "users"]

/-- The hard-coded AI-assistance keyword list of MCP._analyze_query. -/
def ai_keywords : List String :=
  ["explain", "how", "what", "why", "help", "describe", "tell me",
   "analyze", "suggest", "recommend", "optimize", "improve",
   "understand", "clarify", "breakdown", "summary", "overview",
   "best practice", "advice", "guidance", "meaning", "purpose"]

/-- The hard-coded system-status keyword list of MCP._analyze_query. -/
def system_keywords : List String :=
  ["status", "health", "check", "connection", "available", "tools",
   "system", "server", "running", "working", "test", "verify"]

/-- The dict returned by MCP._analyze_query, as a structure with the same
field names. Confidence scores idealise Python float arithmetic over ℚ. -/
structure QueryAnalysis where
  is_database_query : Bool
  is_api_request : Bool
  requires_ai : Bool
  is_system_query : Bool
  is_complex : Bool
  query_intent : String
  word_count : Nat
  confidence_database : ℚ
  confidence_api : ℚ
  confidence_ai : ℚ
  confidence_system : ℚ

/-- MCP._calculate_confidence for one keyword list:
min(matches / max(total_words * 0.3, 1), 1.0). -/
def calculate_confidence_one (query_lower : String) (kws : List String) : ℚ :=
  let total_words : ℚ := (pySplit query_lower).length
  let hits : ℚ := (kws.filter (fun kw => pyIn kw query_lower)).length
  min (hits / max (total_words * (3 / 10)) 1) 1

/-- MCP._analyze_query: lowercase the query, compute each flag as a
keyword-substring match over the corresponding list, plus intent, complexity
and confidence bookkeeping. -/
def analyze_query (query : String) : QueryAnalysis :=
  let query_lower := pyLower query
  let is_database_query := db_keywords.any (fun kw => pyIn kw query_lower)
  let is_api_request := api_keywords.any (fun kw => pyIn kw query_lower)
  let requires_ai := ai_keywords.any (fun kw => pyIn kw query_lower)
  let is_system_query := system_keywords.any (fun kw => pyIn kw query_lower)
  let query_intent :=
    if pyIn "schema" query_lower || pyIn "structure" query_lower
        || pyIn "tables" query_lower then
      "schema_exploration"
    else if ["employee", "department", "order", "customer"].any
        (fun w => pyIn w query_lower) then
      "data_retrieval"
    else if is_api_request then "api_call"
    else if is_system_query then "system_status"
    else if requires_ai && !is_database_query then "ai_assistance"
    else "general"
  { is_database_query := is_database_query,
    is_api_request := is_api_request,
    requires_ai := requires_ai,
    is_system_query := is_system_query,
    is_complex := (pySplit query).length > 10,
    query_intent := query_intent,
    word_count := (pySplit query).length,
    confidence_database := calculate_confidence_one query_lower db_keywords,
    confidence_api := calculate_confidence_one query_lower api_keywords,
    confidence_ai := calculate_confidence_one query_lower ai_keywords,
    confidence_system := calculate_confidence_one query_lower system_keywords }

/-! ### APICallTool._process_api_response (src/api_tools.py lines 182-212)

A received requests.Response enters the model as an HttpResponse value:
status code, headers, the body (as parsed JSON when response.json() succeeds,
as text when it raises JSONDecodeError), elapsed seconds and reason phrase. -/

/-- An HTTP response as observed by _process_api_response. -/
structure HttpResponse where
  status_code : Nat
  headers : List (String × String)
  bodyJson : Option JValue
  bodyText : String
  elapsedSeconds : ℚ
  reason : String

/-- APICallTool._process_api_response: build the envelope for a received
response, adding error_type / error_message for status codes at or above 400. -/
def process_api_response (resp : HttpResponse) (url method : String)
    (nowTs : String) : JDict :=
  let response_data : JValue :=
    match resp.bodyJson with
    | some j => j
    | none => JValue.jstr resp.bodyText
  let result : JDict :=
    [("status", JValue.jstr (if resp.status_code < 400 then "success" else "error")),
     ("status_code", JValue.jint resp.status_code),
     ("headers", JValue.jobj (resp.headers.map (fun p => (p.1, JValue.jstr p.2)))),
     ("data", response_data),
     ("url", JValue.jstr url),
     ("method", JValue.jstr method),
     ("response_time_ms", JValue.jnum (resp.elapsedSeconds * 1000)),
     ("timestamp", JValue.jstr nowTs)]
  if resp.status_code ≥ 400 then
    dictSet
      (dictSet result "error_type" (JValue.jstr "http_error"))
      "error_message"
      (JValue.jstr ("HTTP " ++ toString resp.status_code ++ ": " ++ resp.reason))
  else
    result

/-! ### Database seeding (src/database.py lines 35-224)

The five demo tables are modelled as lists of typed rows. CREATE TABLE IF NOT
EXISTS and CREATE INDEX IF NOT EXISTS never change table contents, so
_initialize_database reduces, at the level of rows, to _insert_sample_data.
INSERT statements enforce the INTEGER PRIMARY KEY constraint: inserting a
duplicate key raises sqlite3.IntegrityError, modelled with Except. -/

/-- A row of the departments table. -/
structure DeptRow where
  department_id : Int
  department_name : String
  manager_id : Option Int
  location_id : Int
deriving DecidableEq

/-- A row of the employees table. -/
structure EmpRow where
  employee_id : Int
  first_name : String
  last_name : String
  email : String
  phone_number : String
  hire_date : String
  job_id : String
  salary : ℚ
  commission_pct : Option ℚ
  manager_id : Option Int
  department_id : Int
deriving DecidableEq

/-- A row of the products table. -/
structure ProdRow where
  product_id : Int
  product_name : String
  product_code : String
  category_id : Int
  unit_price : ℚ
  units_in_stock : Int
  discontinued : Int
deriving DecidableEq

/-- A row of the orders table. -/
structure OrderRow where
  order_id : Int
  customer_id : Int
  order_date : String
  ship_date : Option String
  order_status : String
  total_amount : ℚ
  discount_amount : ℚ
  tax_amount : ℚ
  created_by : Int
deriving DecidableEq

/-- A row of the audit_log table (never seeded by the sample data). -/
structure AuditRow where
  audit_id : Int
  table_name : String
  operation : String
deriving DecidableEq

/-- The row contents of the five demo tables. -/
structure DBState where
  employees : List EmpRow
  departments : List DeptRow
  orders : List OrderRow
  products : List ProdRow
  audit_log : List AuditRow
deriving DecidableEq

/-- The hard-coded sample departments of _insert_sample_data. -/
def sampleDepartments : List DeptRow :=
  [⟨10, "Administration", none, 1700⟩,
   ⟨20, "Marketing", none, 1800⟩,
   ⟨30, "Purchasing", none, 1700⟩,
   ⟨40, "Human Resources", none, 2400⟩,
   ⟨50, "IT", none, 1400⟩,
   ⟨60, "Finance", none, 1700⟩]

/-- The hard-coded sample employees of _insert_sample_data. -/
def sampleEmployees : List EmpRow :=
  [⟨100, "Steven", "King", "steven.king@company.com", "515-123-4567",
    "2020-01-01", "CEO", 24000, none, none, 10⟩,
   ⟨101, "Neena", "Kochhar", "neena.kochhar@company.com", "515-123-4568",
    "2020-02-01", "VP", 17000, none, some 100, 10⟩,
   ⟨102, "Lex", "De Haan", "lex.dehaan@company.com", "515-123-4569",
    "2020-03-01", "VP", 17000, none, some 100, 10⟩,
   ⟨103, "Alexander", "Hunold", "alexander.hunold@company.com", "590-423-4567",
    "2020-04-01", "PROG", 9000, none, some 102, 50⟩,
   ⟨104, "Bruce", "Ernst", "bruce.ernst@company.com", "590-423-4568",
    "2020-05-01", "PROG", 6000, none, some 103, 50⟩,
   ⟨105, "David", "Austin", "david.austin@company.com", "590-423-4569",
    "2020-06-01", "PROG", 4800, none, some 103, 50⟩]

/-- The hard-coded sample products of _insert_sample_data. -/
def sampleProducts : List ProdRow :=
  [⟨1, "Laptop Computer", "LAP-001", 1, 1200, 50, 0⟩,
   ⟨2, "Desktop Computer", "DES-001", 1, 800, 30, 0⟩,
   ⟨3, "Wireless Mouse", "MOU-001", 2, 25, 100, 0⟩,
   ⟨4, "Keyboard", "KEY-001", 2, 45, 75, 0⟩,
   ⟨5, "Monitor 24\"", "MON-001", 1, 300, 25, 0⟩]

/-- The hard-coded sample orders of _insert_sample_data. -/
def sampleOrders : List OrderRow :=
  [⟨1001, 1, "2024-01-15", some "2024-01-18", "DELIVERED", 1245, 0, 124.50, 100⟩,
   ⟨1002, 2, "2024-01-16", some "2024-01-19", "DELIVERED", 870, 50, 87, 101⟩,
   ⟨1003, 3, "2024-01-17", none, "PROCESSING", 325, 0, 32.50, 102⟩,
   ⟨1004, 1, "2024-01-18", none, "PENDING", 1500, 100, 150, 100⟩]

/-- cursor.executemany over an INSERT statement: add the rows one by one,
raising sqlite3.IntegrityError when a primary key is already present. -/
def insertRows {α : Type} (key : α → Int) (table : List α) (new : List α) :
    Except String (List α) :=
  new.foldlM
    (fun acc r =>
      if acc.any (fun x => key x == key r) then
        Except.error "UNIQUE constraint failed"
      else
        Except.ok (acc ++ [r]))
    table

/-- DatabaseManager._insert_sample_data: count the departments rows and return
at once when any exist, otherwise insert the four hard-coded sample row sets. -/
def insert_sample_data (s : DBState) : Except String DBState :=
  if s.departments.length > 0 then
    Except.ok s
  else do
    let d ← insertRows DeptRow.department_id s.departments sampleDepartments
    let e ← insertRows EmpRow.employee_id s.employees sampleEmployees
    let p ← insertRows ProdRow.product_id s.products sampleProducts
    let o ← insertRows OrderRow.order_id s.orders sampleOrders
    Except.ok { s with departments := d, employees := e, products := p, orders := o }

/-- DatabaseManager._initialize_database at the level of table rows:
_create_sample_tables issues CREATE TABLE IF NOT EXISTS statements (no row
changes) and then _insert_sample_data; _create_indexes issues CREATE INDEX IF
NOT EXISTS statements (no row changes). -/
def init_database (s : DBState) : Except String DBState :=
  insert_sample_data s

/-- Keep the first occurrence of each string, skipping those already seen.
Describes the key list produced by repeated Python dict assignment. -/
def dedupFirstAux (seen : List String) : List String → List String
  | [] => []
  | c :: cs =>
      if seen.any (fun x => x == c) then dedupFirstAux seen cs
      else c :: dedupFirstAux (c :: seen) cs

/-- The distinct members of a list, each at its first occurrence, in order. -/
def dedupFirst (l : List String) : List String := dedupFirstAux [] l

/-- The empty database state. -/
def emptyDB : DBState := ⟨[], [], [], [], []⟩

/-- The database state holding exactly the hard-coded sample rows. -/
def seededDB : DBState :=
  ⟨sampleEmployees, sampleDepartments, sampleOrders, sampleProducts, []⟩

/-! ## Supporting lemmas -/

/-- listStartsWith tests for an initial segment. -/
theorem listStartsWith_iff (n : List Char) :
    ∀ m, listStartsWith n m = true ↔ ∃ r, m = n ++ r := by
  induction n with
  | nil =>
    intro m
    simp [listStartsWith]
  | cons a as ih =>
    intro m
    cases m with
    | nil =>
      simp [listStartsWith]
    | cons b bs =>
      simp only [listStartsWith, Bool.and_eq_true, beq_iff_eq, ih,
        List.cons_append, List.cons.injEq]
      constructor
      · rintro ⟨hab, r, hr⟩
        exact ⟨r, hab.symm, hr⟩
      · rintro ⟨r, hba, hr⟩
        exact ⟨hba.symm, r, hr⟩

/-- listHasSub tests for a contiguous occurrence. -/
theorem listHasSub_iff (n : List Char) :
    ∀ h, listHasSub n h = true ↔ ∃ l r, h = l ++ n ++ r := by
  intro h
  induction h with
  | nil =>
    constructor
    · intro hn
      have hne : n = [] := by
        simpa [listHasSub, List.isEmpty_iff] using hn
      exact ⟨[], [], by simp [hne]⟩
    · rintro ⟨l, r, hr⟩
      have hl : l ++ n ++ r = [] := hr.symm
      rcases List.append_eq_nil.mp hl with ⟨hln, hrn⟩
      rcases List.append_eq_nil.mp hln with ⟨-, hn⟩
      simp [listHasSub, hn]
  | cons c cs ih =>
    simp only [listHasSub, Bool.or_eq_true, listStartsWith_iff, ih]
    constructor
    · rintro (⟨r, hr⟩ | ⟨l, r, hr⟩)
      · exact ⟨[], r, by simp [hr]⟩
      · exact ⟨c :: l, r, by simp [hr]⟩
    · rintro ⟨l, r, hr⟩
      cases l with
      | nil =>
        exact Or.inl ⟨r, by simpa using hr⟩
      | cons x xs =>
        have hx : c = x ∧ cs = xs ++ n ++ r := by
          simpa using hr
        exact Or.inr ⟨xs, r, hx.2⟩

/-- pyIn is Python substring containment. -/
theorem pyIn_iff (need hay : String) :
    pyIn need hay = true ↔ ∃ l r, hay.data = l ++ need.data ++ r := by
  simpa [pyIn] using listHasSub_iff need.data hay.data

/-- Assigning a key leaves the key list unchanged when the key is present and
appends the key otherwise. -/
theorem dictKeys_dictSet (d : JDict) (k : String) (v : JValue) :
    dictKeys (dictSet d k v) =
      if d.any (fun p => p.1 == k) then dictKeys d else dictKeys d ++ [k] := by
  unfold dictSet dictKeys
  by_cases h : d.any (fun p => p.1 == k) = true
  · simp only [h, if_true, List.map_map]
    refine List.map_congr_left ?_
    intro p _
    by_cases hk : (p.1 == k) = true
    · simp only [Function.comp_apply]
      rw [if_pos hk]
      exact (eq_of_beq hk).symm
    · simp only [Function.comp_apply]
      rw [if_neg hk]
  · simp [h]

/-- A keyword membership test over a key list coincides with the dict-level
presence test. -/
theorem any_fst_eq (d : JDict) (k : String) :
    (dictKeys d).any (fun x => x == k) = d.any (fun p => p.1 == k) := by
  induction d with
  | nil => rfl
  | cons p ps ih =>
    simp only [dictKeys, List.map_cons, List.any_cons] at ih ⊢
    rw [ih]

/-- dedupFirstAux only consults the seen list through membership. -/
theorem dedupFirstAux_congr :
    ∀ (l : List String) (s1 s2 : List String),
      (∀ x, s1.any (fun y => y == x) = s2.any (fun y => y == x)) →
      dedupFirstAux s1 l = dedupFirstAux s2 l := by
  intro l
  induction l with
  | nil => intro s1 s2 _; rfl
  | cons c cs ih =>
    intro s1 s2 h
    simp only [dedupFirstAux, h c]
    by_cases hm : s2.any (fun y => y == c) = true
    · simp only [hm, if_true]
      exact ih s1 s2 h
    · simp only [hm, if_false]
      refine congrArg (c :: ·) (ih (c :: s1) (c :: s2) ?_)
      intro x
      simp [List.any_cons, h x]

/-- The key list of a dict after a run of Python dict assignments: the
original keys followed by the first occurrences of the new keys. -/
theorem dictKeys_foldl_dictSet (ps : List (String × JValue)) :
    ∀ d : JDict,
      dictKeys (ps.foldl (fun acc p => dictSet acc p.1 p.2) d) =
        dictKeys d ++ dedupFirstAux (dictKeys d) (ps.map Prod.fst) := by
  induction ps with
  | nil => intro d; simp [dedupFirstAux]
  | cons p ps ih =>
    intro d
    simp only [List.foldl_cons, List.map_cons, ih, dedupFirstAux, any_fst_eq]
    by_cases h : d.any (fun q => q.1 == p.1) = true
    · have hkeys : dictKeys (dictSet d p.1 p.2) = dictKeys d := by
        simp [dictKeys_dictSet, h]
      simp [hkeys, h]
    · have hkeys : dictKeys (dictSet d p.1 p.2) = dictKeys d ++ [p.1] := by
        simp [dictKeys_dictSet, h]
      have hseen : dedupFirstAux (dictKeys d ++ [p.1]) (ps.map Prod.fst) =
          dedupFirstAux (p.1 :: dictKeys d) (ps.map Prod.fst) := by
        refine dedupFirstAux_congr _ _ _ ?_
        intro x
        simp [List.any_append, List.any_cons, Bool.or_comm]
      simp [hkeys, h, hseen, List.append_assoc]

/-- The keys of a row dict are the first occurrences of the column names. -/
theorem dictKeys_rowDict (cols : List String) (row : List JValue) :
    dictKeys (rowDict cols row) = dedupFirst ((cols.zip row).map Prod.fst) := by
  simpa [dictKeys, dedupFirst] using
    dictKeys_foldl_dictSet (cols.zip row) []

/-- On a list without repetitions whose members are unseen, dedupFirstAux is
the identity. -/
theorem dedupFirstAux_of_nodup :
    ∀ (l : List String) (seen : List String), l.Nodup →
      (∀ x ∈ l, seen.any (fun y => y == x) = false) →
      dedupFirstAux seen l = l := by
  intro l
  induction l with
  | nil => intro seen _ _; rfl
  | cons c cs ih =>
    intro seen hnd hun
    have hc : seen.any (fun y => y == c) = false := hun c (by simp)
    simp only [dedupFirstAux, hc, if_false]
    refine congrArg (c :: ·) (ih (c :: seen) (List.Nodup.of_cons hnd) ?_)
    intro x hx
    have hcx : (c == x) = false := by
      have : c ≠ x := by
        intro hcex
        exact (List.nodup_cons.mp hnd).1 (hcex ▸ hx)
      simpa using this
    simp [List.any_cons, hcx, hun x (List.mem_cons_of_mem _ hx)]

/-- Deduplication is the identity on lists without repetitions. -/
theorem dedupFirst_of_nodup (l : List String) (h : l.Nodup) :
    dedupFirst l = l :=
  dedupFirstAux_of_nodup l [] h (fun _ _ => rfl)

/-- Distinct string payloads give distinct optional JSON strings. -/
theorem some_jstr_ne (a b : String) (hab : a ≠ b) :
    some (JValue.jstr a) ≠ some (JValue.jstr b) := by
  intro h
  injection h with h1
  injection h1 with h2
  exact hab h2

/-! ## Claim theorems -/

/-- C2: DatabaseManager.execute_query never raises to its caller (the
embedding is a total function covering every cursor outcome); it returns
either a dict with status success, or a dict with status error, an
error_code of SQL_ERROR for sqlite3 errors or GENERAL_ERROR for any other
exception, and a timestamp; and on both error paths conn.commit() is never
reached, so a failed call leaves the database contents unchanged (the
connection context rolls back instead). On the success path commit runs
exactly on the non-SELECT branch. -/
theorem execute_query_error_envelope (q startTs : String) (execTime : ℚ)
    (m : String) (cols : List String) (rows : List (List JValue)) (rc li : Int) :
    (jGet (execute_query q (ExecOutcome.sqlErr m) startTs execTime).result "status"
        = some (JValue.jstr "error")
      ∧ jGet (execute_query q (ExecOutcome.sqlErr m) startTs execTime).result "error_code"
        = some (JValue.jstr "SQL_ERROR")
      ∧ jGet (execute_query q (ExecOutcome.sqlErr m) startTs execTime).result "timestamp"
        = some (JValue.jstr startTs)
      ∧ (execute_query q (ExecOutcome.sqlErr m) startTs execTime).committed = false)
    ∧ (jGet (execute_query q (ExecOutcome.genErr m) startTs execTime).result "status"
        = some (JValue.jstr "error")
      ∧ jGet (execute_query q (ExecOutcome.genErr m) startTs execTime).result "error_code"
        = some (JValue.jstr "GENERAL_ERROR")
      ∧ jGet (execute_query q (ExecOutcome.genErr m) startTs execTime).result "timestamp"
        = some (JValue.jstr startTs)
      ∧ (execute_query q (ExecOutcome.genErr m) startTs execTime).committed = false)
    ∧ (jGet (execute_query q (ExecOutcome.ok cols rows rc li) startTs execTime).result "status"
        = some (JValue.jstr "success")
      ∧ (execute_query q (ExecOutcome.ok cols rows rc li) startTs execTime).committed
        = !(pyStartsWith (pyUpper (pyStrip q)) "SELECT")) := by
  refine ⟨⟨rfl, rfl, rfl, rfl⟩, ⟨rfl, rfl, rfl, rfl⟩, ?_⟩
  by_cases h : pyStartsWith (pyUpper (pyStrip q)) "SELECT" = true
  · simp only [execute_query, h, if_true]
    exact ⟨rfl, by simp [h]⟩
  · simp only [execute_query, h, if_false]
    refine ⟨rfl, ?_⟩
    simp only [Bool.not_eq_true] at h
    simp [h]

/-- C3: transaction_connections is a map from thread ids to at most one
connection each (its Lean type); begin_transaction stores the new connection
under the calling thread's id, replacing any previous entry for that thread
and leaving every other thread's entry unchanged; commit_transaction and
rollback_transaction, when an entry exists for the calling thread, remove
exactly that thread's entry and leave every other thread's entry unchanged. -/
theorem transaction_map_discipline (s : TxnMap) (tid conn c : Nat) :
    begin_transaction s tid conn tid = some conn
    ∧ (∀ t, t ≠ tid → begin_transaction s tid conn t = s t)
    ∧ (s tid = some c →
        (commit_transaction s tid).2 = none
        ∧ (commit_transaction s tid).1 tid = none
        ∧ ∀ t, t ≠ tid → (commit_transaction s tid).1 t = s t)
    ∧ (s tid = some c →
        rollback_transaction s tid tid = none
        ∧ ∀ t, t ≠ tid → rollback_transaction s tid t = s t) := by
  refine ⟨by simp [begin_transaction],
          fun t ht => by simp [begin_transaction, ht],
          ?_, ?_⟩
  · intro h
    refine ⟨by simp [commit_transaction, h], by simp [commit_transaction, h], ?_⟩
    intro t ht
    simp [commit_transaction, h, ht]
  · intro h
    refine ⟨by simp [rollback_transaction, h], ?_⟩
    intro t ht
    simp [rollback_transaction, h, ht]

/-- C3 witness: the discipline instantiated on a map holding connection 42
for thread 7 and connection 9 for thread 8. -/
theorem transaction_map_discipline_witness :
    (commit_transaction (fun t => if t = 7 then some 42 else some 9) 7).1 7 = none
    ∧ (commit_transaction (fun t => if t = 7 then some 42 else some 9) 7).1 8 = some 9
    ∧ begin_transaction (fun t => if t = 7 then some 42 else some 9) 7 5 7 = some 5 := by
  have h := transaction_map_discipline (fun t => if t = 7 then some 42 else some 9) 7 5 42
  refine ⟨(h.2.2.1 (by simp)).2.1, (h.2.2.1 (by simp)).2.2 8 (by simp), h.1⟩

/-- C10: when the calling thread has no stored transaction connection,
commit_transaction raises Exception("No active transaction found") while
rollback_transaction only logs a warning and returns normally; in both cases
the transaction_connections dict is left unchanged. -/
theorem no_active_transaction_behaviour (s : TxnMap) (tid : Nat)
    (h : s tid = none) :
    (commit_transaction s tid).2 = some "No active transaction found"
    ∧ (commit_transaction s tid).1 = s
    ∧ rollback_transaction s tid = s := by
  refine ⟨?_, ?_, ?_⟩ <;> simp [commit_transaction, rollback_transaction, h]

/-- C10 witness: the behaviour instantiated on the empty map for thread 3. -/
theorem no_active_transaction_behaviour_witness :
    (commit_transaction (fun _ => none) 3).2 = some "No active transaction found"
    ∧ (commit_transaction (fun _ => none) 3).1 = (fun _ => none)
    ∧ rollback_transaction (fun _ => none) 3 = (fun _ => none) :=
  no_active_transaction_behaviour (fun _ => none) 3 rfl

/-- C5: each of the four flags computed by MCP._analyze_query is true exactly
when the lowercased query contains at least one keyword of the corresponding
hard-coded list as a contiguous substring. The analysis is a pure function of
the query text, so two runs on the same text give the same result by
reflexivity. -/
theorem analyze_query_flags (query : String) :
    ((analyze_query query).is_database_query = true ↔
      ∃ kw ∈ db_keywords, ∃ l r, (pyLower query).data = l ++ kw.data ++ r)
    ∧ ((analyze_query query).is_api_request = true ↔
      ∃ kw ∈ api_keywords, ∃ l r, (pyLower query).data = l ++ kw.data ++ r)
    ∧ ((analyze_query query).requires_ai = true ↔
      ∃ kw ∈ ai_keywords, ∃ l r, (pyLower query).data = l ++ kw.data ++ r)
    ∧ ((analyze_query query).is_system_query = true ↔
      ∃ kw ∈ system_keywords, ∃ l r, (pyLower query).data = l ++ kw.data ++ r) := by
  refine ⟨?_, ?_, ?_, ?_⟩ <;>
    simp only [analyze_query, List.any_eq_true, pyIn_iff]

/-- C5 witness: the flags evaluated on a concrete query through the theorem. -/
theorem analyze_query_flags_witness :
    ((analyze_query "show me all employees").is_database_query = true ↔
      ∃ kw ∈ db_keywords, ∃ l r,
        (pyLower "show me all employees").data = l ++ kw.data ++ r)
    ∧ (analyze_query "show me all employees").is_database_query = true := by
  refine ⟨(analyze_query_flags "show me all employees").1, ?_⟩
  rfl

/-- C7: given the same DatabaseManager.execute_query result dict and the same
query text, SimpleMCPServer.execute_oracle_query and
OracleQueryTool._format_oracle_result build identical response envelopes, on
the success branch (including the query_plan added for SELECT text) and on
the error branch (error_code ORA-00942) alike; the embedded timestamps are
the shared nowTs parameter, matching the claim's reading up to timestamps. -/
theorem format_oracle_result_eq_simple (q : String) (outcome : ExecOutcome)
    (startTs : String) (execTime : ℚ) (q2 nowTs : String) :
    format_oracle_result (execute_query q outcome startTs execTime).result q2 nowTs
      = simple_execute_oracle_query_format
          (execute_query q outcome startTs execTime).result q2 nowTs := by
  cases outcome with
  | ok cols rows rc li =>
    by_cases h : pyStartsWith (pyUpper (pyStrip q)) "SELECT" = true
    · simp only [execute_query, h, if_true]
      rfl
    · simp only [execute_query, h, if_false]
      rfl
  | sqlErr m => rfl
  | genErr m => rfl

/-- C8: for every received HTTP response, the envelope built by
APICallTool._process_api_response contains status_code, headers,
response_time_ms, url and method, in addition to the shared fields status,
data and timestamp. -/
theorem process_api_response_fields (resp : HttpResponse)
    (url method nowTs : String) :
    hasKey (process_api_response resp url method nowTs) "status_code" = true
    ∧ hasKey (process_api_response resp url method nowTs) "headers" = true
    ∧ hasKey (process_api_response resp url method nowTs) "response_time_ms" = true
    ∧ hasKey (process_api_response resp url method nowTs) "url" = true
    ∧ hasKey (process_api_response resp url method nowTs) "method" = true
    ∧ hasKey (process_api_response resp url method nowTs) "status" = true
    ∧ hasKey (process_api_response resp url method nowTs) "data" = true
    ∧ hasKey (process_api_response resp url method nowTs) "timestamp" = true := by
  by_cases h : resp.status_code ≥ 400
  · simp only [process_api_response, if_pos h]
    exact ⟨rfl, rfl, rfl, rfl, rfl, rfl, rfl, rfl⟩
  · simp only [process_api_response, if_neg h]
    exact ⟨rfl, rfl, rfl, rfl, rfl, rfl, rfl, rfl⟩

/-- C9: OracleQueryTool._run executes no query and returns the ORA-00001
error envelope unless _validate_sql_query accepts; and acceptance holds
exactly when the uppercased, stripped query starts with one of SELECT,
INSERT, UPDATE, DELETE, WITH and contains none of DROP, TRUNCATE, ALTER,
CREATE, GRANT, REVOKE as a substring anywhere. -/
theorem run_rejects_invalid_queries (fmtQ : String → String) (q : String)
    (outcome : ExecOutcome) (startTs : String) (execTime : ℚ) (nowTs : String) :
    ((oracle_query_tool_run fmtQ q outcome startTs execTime nowTs).executedQuery
      = validate_sql_query q)
    ∧ (validate_sql_query q = false →
        jGet (oracle_query_tool_run fmtQ q outcome startTs execTime nowTs).output
            "status" = some (JValue.jstr "error")
        ∧ jGet (oracle_query_tool_run fmtQ q outcome startTs execTime nowTs).output
            "error_code" = some (JValue.jstr "ORA-00001"))
    ∧ (validate_sql_query q = true ↔
        (["SELECT", "INSERT", "UPDATE", "DELETE", "WITH"].any
            (fun kw => pyStartsWith (pyStrip (pyUpper q)) kw) = true
         ∧ ["DROP", "TRUNCATE", "ALTER", "CREATE", "GRANT", "REVOKE"].all
            (fun kw => !pyIn kw (pyStrip (pyUpper q))) = true)) := by
  refine ⟨?_, ?_, ?_⟩
  · by_cases hv : validate_sql_query q = true
    · simp [oracle_query_tool_run, hv]
    · simp only [Bool.not_eq_true] at hv
      simp [oracle_query_tool_run, hv]
  · intro hv
    simp only [oracle_query_tool_run, hv, Bool.false_eq_true, if_false]
    exact ⟨rfl, rfl⟩
  · simp only [validate_sql_query]
    by_cases hd : (["DROP", "TRUNCATE", "ALTER", "CREATE", "GRANT", "REVOKE"].any
        (fun kw => pyIn kw (pyStrip (pyUpper q)))) = true
    · rw [if_pos hd]
      constructor
      · intro h
        exact absurd h (by simp)
      · rintro ⟨-, hall⟩
        rw [List.all_eq_true] at hall
        rw [List.any_eq_true] at hd
        obtain ⟨kw, hmem, hp⟩ := hd
        have := hall kw hmem
        rw [hp] at this
        exact absurd this (by simp)
    · rw [if_neg hd]
      have hall : (["DROP", "TRUNCATE", "ALTER", "CREATE", "GRANT", "REVOKE"].all
          (fun kw => !pyIn kw (pyStrip (pyUpper q)))) = true := by
        rw [List.all_eq_true]
        intro kw hmem
        have hnp : pyIn kw (pyStrip (pyUpper q)) = false := by
          rw [← Bool.not_eq_true]
          intro hp
          exact hd (List.any_eq_true.mpr ⟨kw, hmem, hp⟩)
        rw [hnp]
        rfl
      constructor
      · intro hs
        exact ⟨hs, hall⟩
      · exact fun h => h.1

/-- C9 witness: a SELECT whose text mentions an identifier containing CREATE
is rejected without executing any query, through the main theorem. -/
theorem run_rejects_invalid_queries_witness :
    (oracle_query_tool_run (fun s => s) "SELECT created_date FROM employees"
      (ExecOutcome.ok [] [] 0 0) "t0" 0 "t1").executedQuery = false
    ∧ jGet (oracle_query_tool_run (fun s => s) "SELECT created_date FROM employees"
      (ExecOutcome.ok [] [] 0 0) "t0" 0 "t1").output "error_code"
      = some (JValue.jstr "ORA-00001") := by
  have h := run_rejects_invalid_queries (fun s => s)
    "SELECT created_date FROM employees" (ExecOutcome.ok [] [] 0 0) "t0" 0 "t1"
  have hv : validate_sql_query "SELECT created_date FROM employees" = false := by rfl
  exact ⟨h.1.trans hv, (h.2.1 hv).2⟩

/-- C1 counterexample: a successful SELECT envelope produced by
OracleQueryTool._run carries no top-level row_count field and no top-level
timestamp field (row counts are published as rows_affected and the timestamp
sits inside oracle_metadata), so the claimed success-envelope shape fails.
The fmtQ argument mirrors what _format_oracle_query does to this query
(appending FROM DUAL to a SELECT without FROM). -/
theorem query_envelope_counterexample :
    jGet (oracle_query_tool_run (fun s => s ++ " FROM DUAL") "SELECT 1"
      (ExecOutcome.ok ["1"] [[JValue.jint 1]] (-1) 0) "t0" 0 "t1").output
      "status" = some (JValue.jstr "success")
    ∧ hasKey (oracle_query_tool_run (fun s => s ++ " FROM DUAL") "SELECT 1"
      (ExecOutcome.ok ["1"] [[JValue.jint 1]] (-1) 0) "t0" 0 "t1").output
      "row_count" = false
    ∧ hasKey (oracle_query_tool_run (fun s => s ++ " FROM DUAL") "SELECT 1"
      (ExecOutcome.ok ["1"] [[JValue.jint 1]] (-1) 0) "t0" 0 "t1").output
      "timestamp" = false := by
  exact ⟨rfl, rfl, rfl⟩

/-- C1 amended: for every query, parameter-driven cursor outcome and
timestamps, the JSON object returned by OracleQueryTool._run has status
success or error; a success envelope carries data (a list), columns (a list
of strings), rows_affected (an int), execution_time_ms (a number) and an
oracle_metadata object whose timestamp field is the ISO8601 string the tool
produced; an error envelope carries error_code and error_message. -/
theorem query_envelope_amended (fmtQ : String → String) (q : String)
    (outcome : ExecOutcome) (startTs : String) (execTime : ℚ) (nowTs : String)
    (res : JDict)
    (hres : res = (oracle_query_tool_run fmtQ q outcome startTs execTime nowTs).output) :
    (jGet res "status" = some (JValue.jstr "success")
      ∨ jGet res "status" = some (JValue.jstr "error"))
    ∧ (jGet res "status" = some (JValue.jstr "success") →
        (∃ xs : List JValue, jGet res "data" = some (JValue.jarr xs))
        ∧ (∃ cs : List String, jGet res "columns" = some (JValue.jarr (cs.map JValue.jstr)))
        ∧ (∃ n : Int, jGet res "rows_affected" = some (JValue.jint n))
        ∧ (∃ v : JValue, jGet res "execution_time_ms" = some v ∧ JValue.isNum v = true)
        ∧ (∃ kvs : JDict, jGet res "oracle_metadata" = some (JValue.jobj kvs)
            ∧ jGet kvs "timestamp" = some (JValue.jstr nowTs)))
    ∧ (jGet res "status" = some (JValue.jstr "error") →
        hasKey res "error_code" = true ∧ hasKey res "error_message" = true) := by
  subst hres
  by_cases hv : validate_sql_query q = true
  · simp only [oracle_query_tool_run, hv, if_true]
    cases outcome with
    | ok cols rows rc li =>
      by_cases hsel : pyStartsWith (pyUpper (pyStrip (fmtQ q))) "SELECT" = true
      · simp only [execute_query, hsel, if_true]
        by_cases hpl : pyStartsWith (pyStrip (pyUpper (fmtQ q))) "SELECT" = true
        · simp only [format_oracle_result, hpl, if_true]
          refine ⟨Or.inl rfl, fun _ => ?_, fun h => ?_⟩
          · exact ⟨⟨_, rfl⟩, ⟨cols, rfl⟩, ⟨_, rfl⟩, ⟨_, rfl, rfl⟩, ⟨_, rfl, rfl⟩⟩
          · exact absurd h (some_jstr_ne "success" "error" (by decide))
        · simp only [format_oracle_result, hpl, Bool.false_eq_true, if_false]
          refine ⟨Or.inl rfl, fun _ => ?_, fun h => ?_⟩
          · exact ⟨⟨_, rfl⟩, ⟨cols, rfl⟩, ⟨_, rfl⟩, ⟨_, rfl, rfl⟩, ⟨_, rfl, rfl⟩⟩
          · exact absurd h (some_jstr_ne "success" "error" (by decide))
      · simp only [execute_query, hsel, Bool.false_eq_true, if_false]
        by_cases hpl : pyStartsWith (pyStrip (pyUpper (fmtQ q))) "SELECT" = true
        · simp only [format_oracle_result, hpl, if_true]
          refine ⟨Or.inl rfl, fun _ => ?_, fun h => ?_⟩
          · exact ⟨⟨_, rfl⟩, ⟨[], rfl⟩, ⟨_, rfl⟩, ⟨_, rfl, rfl⟩, ⟨_, rfl, rfl⟩⟩
          · exact absurd h (some_jstr_ne "success" "error" (by decide))
        · simp only [format_oracle_result, hpl, Bool.false_eq_true, if_false]
          refine ⟨Or.inl rfl, fun _ => ?_, fun h => ?_⟩
          · exact ⟨⟨_, rfl⟩, ⟨[], rfl⟩, ⟨_, rfl⟩, ⟨_, rfl, rfl⟩, ⟨_, rfl, rfl⟩⟩
          · exact absurd h (some_jstr_ne "success" "error" (by decide))
    | sqlErr m =>
      refine ⟨Or.inr rfl, fun h => ?_, fun _ => ⟨rfl, rfl⟩⟩
      exact absurd h (some_jstr_ne "error" "success" (by decide))
    | genErr m =>
      refine ⟨Or.inr rfl, fun h => ?_, fun _ => ⟨rfl, rfl⟩⟩
      exact absurd h (some_jstr_ne "error" "success" (by decide))
  · simp only [Bool.not_eq_true] at hv
    simp only [oracle_query_tool_run, hv, Bool.false_eq_true, if_false]
    refine ⟨Or.inr rfl, fun h => ?_, fun _ => ⟨rfl, rfl⟩⟩
    exact absurd h (some_jstr_ne "error" "success" (by decide))

/-- C1 witness: the amended envelope shape at a concrete successful SELECT
run, through the main theorem. -/
theorem query_envelope_amended_witness :
    (jGet (oracle_query_tool_run (fun s => s ++ " FROM DUAL") "SELECT 1"
        (ExecOutcome.ok ["1"] [[JValue.jint 1]] (-1) 0) "t0" 0 "t1").output
        "status" = some (JValue.jstr "success")
      ∨ jGet (oracle_query_tool_run (fun s => s ++ " FROM DUAL") "SELECT 1"
        (ExecOutcome.ok ["1"] [[JValue.jint 1]] (-1) 0) "t0" 0 "t1").output
        "status" = some (JValue.jstr "error")) :=
  (query_envelope_amended (fun s => s ++ " FROM DUAL") "SELECT 1"
    (ExecOutcome.ok ["1"] [[JValue.jint 1]] (-1) 0) "t0" 0 "t1" _ rfl).1

/-- C4 counterexample: when the cursor's column names repeat (as sqlite
produces for SELECT 1 AS a, 2 AS a), the returned data rows are dicts whose
key list is the deduplicated name list, not the full columns list, so the
claimed keys-equal-columns property fails on a success SELECT result. -/
theorem select_keys_counterexample :
    jGet (execute_query "SELECT 1 AS a, 2 AS a"
        (ExecOutcome.ok ["a", "a"] [[JValue.jint 1, JValue.jint 2]] (-1) 0)
        "t0" 0).result "status" = some (JValue.jstr "success")
    ∧ jGet (execute_query "SELECT 1 AS a, 2 AS a"
        (ExecOutcome.ok ["a", "a"] [[JValue.jint 1, JValue.jint 2]] (-1) 0)
        "t0" 0).result "columns"
      = some (JValue.jarr [JValue.jstr "a", JValue.jstr "a"])
    ∧ jGet (execute_query "SELECT 1 AS a, 2 AS a"
        (ExecOutcome.ok ["a", "a"] [[JValue.jint 1, JValue.jint 2]] (-1) 0)
        "t0" 0).result "data"
      = some (JValue.jarr [JValue.jobj [("a", JValue.jint 2)]])
    ∧ dictKeys [("a", JValue.jint 2)] ≠ ["a", "a"] := by
  refine ⟨rfl, rfl, rfl, by decide⟩

/-- C4 amended: for every SELECT answered with success, row_count equals the
length of data, and every element of data is a dict whose keys are the
cursor's column names with duplicates removed (first occurrence kept, in
order); when the column names are pairwise distinct the keys are exactly the
columns list, in order. -/
theorem select_success_shape (q : String) (cols : List String)
    (rows : List (List JValue)) (rc li : Int) (startTs : String) (execTime : ℚ)
    (hsel : pyStartsWith (pyUpper (pyStrip q)) "SELECT" = true)
    (hlen : ∀ row ∈ rows, row.length = cols.length) :
    ∃ data : List JValue,
      jGet (execute_query q (ExecOutcome.ok cols rows rc li) startTs
        execTime).result "data" = some (JValue.jarr data)
      ∧ jGet (execute_query q (ExecOutcome.ok cols rows rc li) startTs
        execTime).result "row_count" = some (JValue.jint data.length)
      ∧ jGet (execute_query q (ExecOutcome.ok cols rows rc li) startTs
        execTime).result "columns" = some (JValue.jarr (cols.map JValue.jstr))
      ∧ (∀ d ∈ data, ∃ kvs : JDict, d = JValue.jobj kvs
          ∧ dictKeys kvs = dedupFirst cols)
      ∧ (cols.Nodup → ∀ d ∈ data, ∃ kvs : JDict, d = JValue.jobj kvs
          ∧ dictKeys kvs = cols) := by
  simp only [execute_query, hsel, if_true]
  refine ⟨rows.map (fun row => JValue.jobj (rowDict cols row)), rfl, rfl, rfl, ?_, ?_⟩
  · intro d hd
    rw [List.mem_map] at hd
    obtain ⟨row, hrow, hmap⟩ := hd
    refine ⟨rowDict cols row, hmap.symm, ?_⟩
    rw [dictKeys_rowDict, List.map_fst_zip cols row (le_of_eq (hlen row hrow).symm)]
  · intro hnd d hd
    rw [List.mem_map] at hd
    obtain ⟨row, hrow, hmap⟩ := hd
    refine ⟨rowDict cols row, hmap.symm, ?_⟩
    rw [dictKeys_rowDict, List.map_fst_zip cols row (le_of_eq (hlen row hrow).symm)]
    exact dedupFirst_of_nodup cols hnd

/-- C4 witness: the amended shape at a concrete two-column SELECT result,
through the main theorem. -/
theorem select_success_shape_witness :
    ∃ data : List JValue,
      jGet (execute_query "SELECT a, b FROM t"
        (ExecOutcome.ok ["a", "b"] [[JValue.jint 1, JValue.jint 2]] (-1) 0)
        "t0" 0).result "data" = some (JValue.jarr data)
      ∧ jGet (execute_query "SELECT a, b FROM t"
        (ExecOutcome.ok ["a", "b"] [[JValue.jint 1, JValue.jint 2]] (-1) 0)
        "t0" 0).result "row_count" = some (JValue.jint data.length)
      ∧ jGet (execute_query "SELECT a, b FROM t"
        (ExecOutcome.ok ["a", "b"] [[JValue.jint 1, JValue.jint 2]] (-1) 0)
        "t0" 0).result "columns"
        = some (JValue.jarr (["a", "b"].map JValue.jstr))
      ∧ (∀ d ∈ data, ∃ kvs : JDict, d = JValue.jobj kvs
          ∧ dictKeys kvs = dedupFirst ["a", "b"])
      ∧ (List.Nodup ["a", "b"] → ∀ d ∈ data, ∃ kvs : JDict, d = JValue.jobj kvs
          ∧ dictKeys kvs = ["a", "b"]) :=
  select_success_shape "SELECT a, b FROM t" ["a", "b"]
    [[JValue.jint 1, JValue.jint 2]] (-1) 0 "t0" 0 rfl
    (by
      intro row hrow
      rw [List.mem_singleton] at hrow
      subst hrow
      rfl)

/-- C6: database seeding happens at most once. If _initialize_database (at
the level of table rows: _insert_sample_data guarded by the departments row
count) succeeds on some state, running it again on the resulting state
returns that state unchanged, so initialisation is idempotent on the rows of
all five sample tables. -/
theorem init_database_idempotent (s s' : DBState)
    (h : init_database s = Except.ok s') :
    init_database s' = Except.ok s' := by
  unfold init_database insert_sample_data at h ⊢
  by_cases hd : s.departments.length > 0
  · rw [if_pos hd] at h
    injection h with h1
    subst h1
    rw [if_pos hd]
  · rw [if_neg hd] at h
    have hnil : s.departments = [] := by
      rcases Nat.eq_zero_or_pos s.departments.length with h0 | hp
      · exact List.length_eq_zero.mp h0
      · exact absurd hp hd
    rw [hnil] at h
    cases he : insertRows EmpRow.employee_id s.employees sampleEmployees with
    | error e =>
      rw [he] at h
      exact Except.noConfusion (show Except.error e = Except.ok s' from h)
    | ok e =>
      rw [he] at h
      cases hp : insertRows ProdRow.product_id s.products sampleProducts with
      | error e2 =>
        rw [hp] at h
        exact Except.noConfusion (show Except.error e2 = Except.ok s' from h)
      | ok p =>
        rw [hp] at h
        cases ho : insertRows OrderRow.order_id s.orders sampleOrders with
        | error e3 =>
          rw [ho] at h
          exact Except.noConfusion (show Except.error e3 = Except.ok s' from h)
        | ok o =>
          rw [ho] at h
          have h2 : Except.ok (DBState.mk e sampleDepartments o p s.audit_log)
              = Except.ok s' := h
          injection h2 with h3
          subst h3
          have hcond : (DBState.mk e sampleDepartments o p
              s.audit_log).departments.length > 0 := by
            show (0 : ℕ) < 6
            decide
          rw [if_pos hcond]

/-- C6 witness: initialising the empty database yields the seeded state, and
a second initialisation returns it unchanged, through the main theorem. -/
theorem init_database_idempotent_witness :
    init_database seededDB = Except.ok seededDB :=
  init_database_idempotent emptyDB seededDB rfl

end LightingMCP
